import Mathlib

/-!
Verification of the MicroMark image-composition engine
(`/convert/image` endpoint, v4.1.0) against its specification.

The engine receives a subject image, a watermark image and a raw
configuration record (multipart form fields), and produces one composed
output image.  We embed the configuration resolver, the geometry planner
and the composition plan as executable Lean definitions, translated from
the JavaScript source.  JavaScript numeric quirks are modelled explicitly:
`Math.round` rounds half toward positive infinity, `x || d` falls back on
every falsy value (NaN, 0, the empty string), `x ?? d` falls back only on
a missing value, and NaN (the result of `parseFloat` on an unparseable
string) is modelled as `none` in `Option ℚ` since `Math.max`/`Math.min`
propagate it.
-/

namespace MicroMark

/-- JavaScript `Math.round`: round half toward positive infinity
(`Math.round (-0.5) = 0`, `Math.round (-1.5) = -1`). -/
def jsRound (x : ℚ) : ℤ := Int.floor (x + 1/2)

/-- JavaScript `raw || dflt` on a form-field string: a missing field or an
empty string (both falsy) fall back to the default. -/
def jsOrDefault : Option String → String → String
  | none, d => d
  | some s, d => if s = "" then d else s

/-- Outcome of JavaScript `parseFloat` on a form field: the field may be
missing, present but unparseable (`parseFloat` yields NaN), or parsed to a
float value. -/
inductive RawNum
  | missing
  | unparseable
  | parsed (q : ℚ)
deriving DecidableEq, Repr

/-- Outcome of JavaScript `parseInt(-, 10)` on a form field. -/
inductive RawInt
  | missing
  | unparseable
  | parsed (n : ℤ)
deriving DecidableEq, Repr

/-- The raw configuration record as it arrives from the multipart form:
string fields plus the parse outcome of each numeric field. -/
structure RawConfig where
  format : Option String
  quality : RawInt
  layout : Option String
  watermarkMode : Option String
  watermarkOpacity : RawNum
  watermarkScale : RawNum
  watermarkAngle : RawNum
deriving DecidableEq, Repr

/-- The resolved configuration, as the variables stand after the
"Parámetros opcionales" block of the endpoint.  Numeric fields that can be
NaN at runtime are `Option ℚ` (`none` = NaN). -/
structure Config where
  targetFormat : String
  quality : ℤ
  layout : String
  watermarkMode : String
  watermarkOpacity : Option ℚ
  watermarkScale : Option ℚ
  watermarkAngle : Option ℚ
deriving DecidableEq, Repr

/-- `quality = parseInt(req.body.quality, 10) || 90`: NaN and the falsy
integer 0 both fall back to 90; every other parsed integer passes through
unchanged (no clamping to [1,100]). -/
def resolveQuality : RawInt → ℤ
  | .parsed n => if n = 0 then 90 else n
  | _ => 90

/-- `Math.max(0, Math.min(1, q))` on a non-NaN float. -/
def clamp01 (q : ℚ) : ℚ := max 0 (min 1 q)

/-- `watermarkOpacity = Math.max(0, Math.min(1, parseFloat(raw ?? '0.30')))`:
`??` only replaces a missing field, so an unparseable present value becomes
NaN, which `Math.min`/`Math.max` propagate (`none`). -/
def resolveWatermarkOpacity : RawNum → Option ℚ
  | .missing => some (clamp01 (3/10))
  | .unparseable => none
  | .parsed q => some (clamp01 q)

/-- `watermarkScale = Math.max(0.1, parseFloat(raw ?? '2.5'))`. -/
def resolveWatermarkScale : RawNum → Option ℚ
  | .missing => some (max (1/10) (5/2))
  | .unparseable => none
  | .parsed q => some (max (1/10) q)

/-- `watermarkAngle = parseFloat(raw ?? '45')`. -/
def resolveWatermarkAngle : RawNum → Option ℚ
  | .missing => some 45
  | .unparseable => none
  | .parsed q => some q

/-- The "Parámetros opcionales" block of the v4.1.0 endpoint. -/
def resolveConfig (r : RawConfig) : Config where
  targetFormat := (jsOrDefault r.format "jpeg").toLower
  quality := resolveQuality r.quality
  layout := (jsOrDefault r.layout "sheet").toLower
  watermarkMode := (jsOrDefault r.watermarkMode "diagonal").toLower
  watermarkOpacity := resolveWatermarkOpacity r.watermarkOpacity
  watermarkScale := resolveWatermarkScale r.watermarkScale
  watermarkAngle := resolveWatermarkAngle r.watermarkAngle

/-- `canvasWidth = layout === 'sheet' ? 800 : 1200`. -/
def canvasWidth (c : Config) : ℕ := if c.layout = "sheet" then 800 else 1200

/-- `canvasHeight = layout === 'sheet' ? 1000 : 1200`. -/
def canvasHeight (c : Config) : ℕ := if c.layout = "sheet" then 1000 else 1200

/-- `mainImageHeight = layout === 'sheet' ? 800 : canvasHeight`. -/
def mainImageHeight (c : Config) : ℕ := if c.layout = "sheet" then 800 else canvasHeight c

/-- Natural (decoded) dimensions of an uploaded image. -/
structure Dims where
  w : ℕ
  h : ℕ
deriving DecidableEq, Repr

/-- Modelled from the documented semantics of the external sharp library:
a resize given only a target width scales to exactly that width, the
height following the aspect ratio (rounded to the nearest integer);
enlargement past the natural size is permitted. -/
def sharpResizeWidth (natW natH : ℕ) (target : ℤ) : ℤ × ℤ :=
  (target, jsRound ((natH : ℚ) * target / natW))

/-- `Math.round(canvasWidth * watermarkScale)`, the width requested for the
watermark layer; NaN (`none`) propagates. -/
def wmTargetWidth (c : Config) : Option ℤ :=
  c.watermarkScale.map (fun q => jsRound ((canvasWidth c : ℚ) * q))

/-- `wmLeft = Math.round((canvasWidth - logoMeta.width) / 2)`. -/
def wmLeft (c : Config) (preparedW : ℤ) : ℤ :=
  jsRound (((canvasWidth c : ℚ) - preparedW) / 2)

/-- `wmTop = Math.round((canvasHeight - logoMeta.height) / 2)`. -/
def wmTop (c : Config) (preparedH : ℤ) : ℤ :=
  jsRound (((canvasHeight c : ℚ) - preparedH) / 2)

/-- The role a composite entry plays in the plan. -/
inductive LayerSource
  | watermark
  | subject
  | bottomLogo
deriving DecidableEq, Repr

/-- One entry of the `composite` array: a rendered buffer (its dimensions),
a placement, and the optional `opacity` field.  The outer `Option` is
whether the `opacity` key is present at all; the inner `Option ℚ` is the
runtime value (`none` = NaN). -/
structure Layer where
  source : LayerSource
  width : ℤ
  height : ℤ
  left : ℤ
  top : ℤ
  opacity : Option (Option ℚ)
deriving DecidableEq, Repr

/-- The optional bottom-logo composite entry: in sheet layout the watermark
image is resized to width 400 and centered in the band below the 800-tall
subject region; otherwise the list is empty. -/
def bottomLogoComp (c : Config) (logo : Dims) : List Layer :=
  if c.layout = "sheet" then
    let d := sharpResizeWidth logo.w logo.h 400
    [{ source := .bottomLogo
       width := d.1
       height := d.2
       left := jsRound (((canvasWidth c : ℚ) - d.1) / 2)
       top := 800 + jsRound ((((canvasHeight c : ℚ) - 800) - d.2) / 2)
       opacity := none }]
  else []

/-- An error response: HTTP status and JSON error message. -/
structure ApiError where
  status : ℕ
  message : String
deriving DecidableEq, Repr

/-- The 400 response when either required file is absent. -/
def missingInputError : ApiError :=
  { status := 400, message := "Se requieren \"image\" y \"watermark\"." }

/-- The 500 response produced when an internal sharp call throws (for
example a NaN resize width reaching the catch block). -/
def internalError : ApiError :=
  { status := 500, message := "Error procesando la imagen." }

/-- A successful response: the composed image's dimensions, the canvas
background, the ordered composite plan, the encoding and the content type. -/
structure ConvertOk where
  width : ℕ
  height : ℕ
  backgroundRGBA : ℕ × ℕ × ℕ × ℚ
  layers : List Layer
  outFormat : String
  contentType : String
  quality : ℤ
deriving DecidableEq, Repr

/-- The v4.1.0 `/convert/image` handler.  `rotateBox` abstracts the
bounding box produced by the external sharp `rotate` call (applied only in
diagonal mode); it is universally quantified in every theorem.  The output
dimensions are those of the white base canvas, which `composite`/`toFormat`
preserve. -/
def convertImage (imageFile logoFile : Option Dims) (r : RawConfig)
    (rotateBox : ℤ × ℤ → ℤ × ℤ) : Except ApiError ConvertOk :=
  match imageFile, logoFile with
  | some _img, some logo =>
    let c := resolveConfig r
    match wmTargetWidth c with
    | none => Except.error internalError
    | some tw =>
      let resized := sharpResizeWidth logo.w logo.h tw
      let prepared := if c.watermarkMode = "diagonal" then rotateBox resized else resized
      let wmLayer : Layer :=
        { source := .watermark
          width := prepared.1
          height := prepared.2
          left := wmLeft c prepared.1
          top := wmTop c prepared.2
          opacity := some c.watermarkOpacity }
      let productLayer : Layer :=
        { source := .subject
          width := (canvasWidth c : ℤ)
          height := (mainImageHeight c : ℤ)
          left := 0
          top := 0
          opacity := none }
      Except.ok
        { width := canvasWidth c
          height := canvasHeight c
          backgroundRGBA := (255, 255, 255, 1)
          layers := wmLayer :: productLayer :: bottomLogoComp c logo
          outFormat := if c.targetFormat = "png" then "png" else "jpeg"
          contentType := if c.targetFormat = "png" then "image/png" else "image/jpeg"
          quality := c.quality }
  | _, _ => Except.error missingInputError

/-- A raw configuration with every field absent (all defaults). -/
def rawAllMissing : RawConfig :=
  { format := none
    quality := .missing
    layout := none
    watermarkMode := none
    watermarkOpacity := .missing
    watermarkScale := .missing
    watermarkAngle := .missing }

/-- The all-defaults request with `format=webp`. -/
def rawWebp : RawConfig := { rawAllMissing with format := some "webp" }

/-- The composed result for two 500x500 inputs under the all-defaults
configuration (with the rotation bounding box taken as the identity). -/
def sampleOut : ConvertOk :=
  { width := 800
    height := 1000
    backgroundRGBA := (255, 255, 255, 1)
    layers :=
      [ { source := .watermark, width := 2000, height := 2000,
          left := -600, top := -500, opacity := some (some (3/10)) },
        { source := .subject, width := 800, height := 800,
          left := 0, top := 0, opacity := none },
        { source := .bottomLogo, width := 400, height := 400,
          left := 200, top := 700, opacity := none } ]
    outFormat := "jpeg"
    contentType := "image/jpeg"
    quality := 90 }

/-- The all-defaults request with `layout=banana` (an unrecognized value). -/
def rawUnknownLayout : RawConfig := { rawAllMissing with layout := some "banana" }

/-- The all-defaults request with `watermarkMode=banana` (an unrecognized value). -/
def rawUnknownMode : RawConfig := { rawAllMissing with watermarkMode := some "banana" }

/-!  Theorems. -/

/-- `jsRound` lands within a half unit of its argument. -/
theorem jsRound_near (x : ℚ) : |(jsRound x : ℚ) - x| ≤ 1/2 := by
  rw [jsRound, abs_le]
  constructor
  · have h := Int.lt_floor_add_one (x + 1/2)
    push_cast at h ⊢
    linarith
  · have h := Int.floor_le (x + 1/2)
    push_cast at h ⊢
    linarith

/-- Inversion for a successful composition: a successful result's fields all
come from the resolved configuration as the endpoint computes them. -/
theorem convertImage_ok_elim (r : RawConfig) (rot : ℤ × ℤ → ℤ × ℤ)
    (img logo : Dims) (out : ConvertOk)
    (hok : convertImage (some img) (some logo) r rot = Except.ok out) :
    out.width = canvasWidth (resolveConfig r) ∧
    out.height = canvasHeight (resolveConfig r) ∧
    out.backgroundRGBA = (255, 255, 255, 1) ∧
    out.outFormat = (if (resolveConfig r).targetFormat = "png" then "png" else "jpeg") ∧
    out.contentType =
      (if (resolveConfig r).targetFormat = "png" then "image/png" else "image/jpeg") ∧
    out.quality = (resolveConfig r).quality ∧
    out.layers.map Layer.source =
      [LayerSource.watermark, LayerSource.subject] ++
        (if (resolveConfig r).layout = "sheet" then [LayerSource.bottomLogo] else []) ∧
    out.layers.map Layer.opacity =
      [some (resolveConfig r).watermarkOpacity, none] ++
        (if (resolveConfig r).layout = "sheet" then [none] else []) := by
  cases htw : wmTargetWidth (resolveConfig r) with
  | none =>
    rw [convertImage] at hok
    simp [htw] at hok
  | some tw =>
    rw [convertImage] at hok
    simp only [htw, Except.ok.injEq] at hok
    subst hok
    refine ⟨rfl, rfl, rfl, rfl, rfl, rfl, ?_, ?_⟩ <;>
      by_cases hl : (resolveConfig r).layout = "sheet" <;>
        simp [bottomLogoComp, hl]

/-- Claim C1: for every valid configuration (one whose resolved layout is the
sheet or overlay enum value) and every pair of decodable input images, the
composed output image's dimensions equal exactly the layout's fixed canvas
size - 800x1000 for sheet and 1200x1200 for overlay - independent of every
other configuration field and of the inputs' natural sizes. -/
theorem c1_output_dims_match_layout_canvas (r : RawConfig) (rot : ℤ × ℤ → ℤ × ℤ)
    (img logo : Dims) (out : ConvertOk)
    (_hvalid : (resolveConfig r).layout = "sheet" ∨ (resolveConfig r).layout = "overlay")
    (hok : convertImage (some img) (some logo) r rot = Except.ok out) :
    ((resolveConfig r).layout = "sheet" → out.width = 800 ∧ out.height = 1000) ∧
    ((resolveConfig r).layout = "overlay" → out.width = 1200 ∧ out.height = 1200) := by
  obtain ⟨hw, hh, -⟩ := convertImage_ok_elim r rot img logo out hok
  constructor
  · intro hl
    rw [hw, hh]
    simp [canvasWidth, canvasHeight, hl]
  · intro hl
    rw [hw, hh]
    have : (resolveConfig r).layout ≠ "sheet" := by rw [hl]; decide
    simp [canvasWidth, canvasHeight, this]

/-- Witness for C1 at a concrete request: both images 500x500, every field
defaulted, so the resolved layout is sheet and the output is 800x1000. -/
theorem c1_witness : sampleOut.width = 800 ∧ sampleOut.height = 1000 := by
  have hl : (resolveConfig rawAllMissing).layout = "sheet" := by with_unfolding_all rfl
  exact (c1_output_dims_match_layout_canvas rawAllMissing (fun p => p) ⟨500, 500⟩ ⟨500, 500⟩
    sampleOut (Or.inl hl) (by with_unfolding_all rfl)).1 hl

/-- Claim C2: a request with the subject image present but the watermark image
missing fails with the 400 validation error whose message names the watermark
field, and no output image is returned (the result is an error, not a partial
success). -/
theorem c2_missing_watermark_rejected (img : Dims) (r : RawConfig)
    (rot : ℤ × ℤ → ℤ × ℤ) :
    convertImage (some img) none r rot = Except.error missingInputError ∧
    missingInputError.status = 400 ∧
    (missingInputError.message.splitOn "watermark").length = 2 := by
  refine ⟨rfl, rfl, by with_unfolding_all rfl⟩

/-- Claim C3 counterexample: an unrecognized enum string does NOT resolve to
the default.  `layout=banana` keeps the value "banana" and, because the
geometry ternaries test `=== 'sheet'`, selects the 1200x1200 overlay-branch
canvas - a different composition from the 800x1000 default - and
`watermarkMode=banana` keeps "banana" rather than the default "diagonal". -/
theorem c3_counterexample :
    (resolveConfig rawUnknownLayout).layout = "banana" ∧
    canvasWidth (resolveConfig rawUnknownLayout) = 1200 ∧
    canvasHeight (resolveConfig rawUnknownLayout) = 1200 ∧
    canvasWidth (resolveConfig rawAllMissing) = 800 ∧
    canvasHeight (resolveConfig rawAllMissing) = 1000 ∧
    (resolveConfig rawUnknownMode).watermarkMode = "banana" ∧
    (resolveConfig rawUnknownMode).watermarkMode ≠ "diagonal" := by
  refine ⟨by with_unfolding_all rfl, by with_unfolding_all rfl, by with_unfolding_all rfl,
    by with_unfolding_all rfl, by with_unfolding_all rfl, by with_unfolding_all rfl, ?_⟩
  have h : (resolveConfig rawUnknownMode).watermarkMode = "banana" := by with_unfolding_all rfl
  rw [h]
  decide

/-- Claim C3 (amended): the resolver never errors and a missing layout or
watermarkMode resolves to the defaults sheet/diagonal, but an unrecognized
non-empty string does not resolve to the default: the field keeps its
lowercased value, so any value other than "sheet" selects the 1200x1200
overlay geometry and any value other than "diagonal" skips the rotation step
(the composition no longer depends on the rotation at all). -/
theorem c3_unrecognized_enum_fallback (s : String) (hne : s ≠ "")
    (hsheet : s.toLower ≠ "sheet") (hdiag : s.toLower ≠ "diagonal") :
    (resolveConfig { rawAllMissing with layout := some s }).layout = s.toLower ∧
    canvasWidth (resolveConfig { rawAllMissing with layout := some s }) = 1200 ∧
    canvasHeight (resolveConfig { rawAllMissing with layout := some s }) = 1200 ∧
    (resolveConfig { rawAllMissing with watermarkMode := some s }).watermarkMode = s.toLower ∧
    (∀ (rot : ℤ × ℤ → ℤ × ℤ) (img logo : Dims),
      convertImage (some img) (some logo) { rawAllMissing with watermarkMode := some s } rot =
        convertImage (some img) (some logo) { rawAllMissing with watermarkMode := some s }
          (fun p => p)) ∧
    (resolveConfig rawAllMissing).layout = "sheet" ∧
    (resolveConfig rawAllMissing).watermarkMode = "diagonal" := by
  have hlay : (resolveConfig { rawAllMissing with layout := some s }).layout = s.toLower := by
    simp [resolveConfig, jsOrDefault, rawAllMissing, hne]
  have hmode :
      (resolveConfig { rawAllMissing with watermarkMode := some s }).watermarkMode
        = s.toLower := by
    simp [resolveConfig, jsOrDefault, rawAllMissing, hne]
  refine ⟨hlay, ?_, ?_, hmode, ?_, by with_unfolding_all rfl, by with_unfolding_all rfl⟩
  · rw [canvasWidth, hlay, if_neg hsheet]
  · rw [canvasHeight, hlay, if_neg hsheet]
  · intro rot img logo
    rw [convertImage, convertImage]
    simp only [hmode, if_neg hdiag]

/-- Witness for C3 (amended) at the unrecognized value "banana". -/
theorem c3_witness :
    canvasWidth (resolveConfig { rawAllMissing with layout := some "banana" }) = 1200 := by
  have h1 : "banana".toLower = "banana" := by with_unfolding_all rfl
  exact (c3_unrecognized_enum_fallback "banana" (by decide)
    (by rw [h1]; decide) (by rw [h1]; decide)).2.1

/-- Claim C4 counterexample: an unparseable (present) watermarkOpacity does
not resolve to the default 0.30 - `??` only replaces a missing field, so
`parseFloat` yields NaN (`none`), which `Math.max`/`Math.min` propagate, and
the planner receives NaN rather than a value in [0,1]. -/
theorem c4_counterexample :
    resolveWatermarkOpacity RawNum.unparseable = none ∧
    resolveWatermarkOpacity RawNum.unparseable ≠ some (3/10) ∧
    (resolveConfig { rawAllMissing with
        watermarkOpacity := RawNum.unparseable }).watermarkOpacity = none := by
  refine ⟨rfl, ?_, rfl⟩
  rw [resolveWatermarkOpacity]
  exact fun h => Option.noConfusion h

/-- Claim C4 (amended): a parseable watermarkOpacity is clamped into [0,1]
and a missing field resolves to the default 0.30, but an unparseable present
value resolves to NaN (`none`) rather than 0.30, so the planner is only
guaranteed an in-range opacity when the field is missing or parseable. -/
theorem c4_opacity_resolution (q : ℚ) :
    resolveWatermarkOpacity (RawNum.parsed q) = some (clamp01 q) ∧
    0 ≤ clamp01 q ∧ clamp01 q ≤ 1 ∧
    resolveWatermarkOpacity RawNum.missing = some (3/10) ∧
    resolveWatermarkOpacity RawNum.unparseable = none := by
  refine ⟨rfl, le_max_left 0 _, max_le (by norm_num) (min_le_left 1 q), ?_, rfl⟩
  rw [resolveWatermarkOpacity]
  norm_num [clamp01]

/-- Claim C9 counterexample: the parsed integer 0 is outside [1,100] yet does
not pass through to encoding unchanged - `parseInt(...) || 90` treats 0 as
falsy, so the resolved quality is 90, not 0. -/
theorem c9_counterexample :
    resolveQuality (RawInt.parsed 0) = 90 ∧
    resolveQuality (RawInt.parsed 0) ≠ 0 ∧
    (resolveConfig { rawAllMissing with quality := RawInt.parsed 0 }).quality = 90 := by
  refine ⟨rfl, by decide, rfl⟩

/-- Claim C9 (amended): quality is the parsed integer, defaulting to 90 when
the field is missing or unparseable, and it is not clamped to [1,100] - any
NONZERO parsed integer (in range or not) passes through unchanged to the
encoder - but the out-of-range value 0 is falsy in JavaScript and also falls
back to 90. -/
theorem c9_quality_passthrough (n : ℤ) (hn : n ≠ 0) :
    resolveQuality (RawInt.parsed n) = n ∧
    resolveQuality RawInt.missing = 90 ∧
    resolveQuality RawInt.unparseable = 90 ∧
    resolveQuality (RawInt.parsed 0) = 90 ∧
    (resolveConfig { rawAllMissing with quality := RawInt.parsed n }).quality = n := by
  have h : resolveQuality (RawInt.parsed n) = n := by
    rw [resolveQuality, if_neg hn]
  exact ⟨h, rfl, rfl, rfl, h⟩

/-- Witness for C9 (amended) at the out-of-range nonzero quality 150, which
passes through unchanged. -/
theorem c9_witness : resolveQuality (RawInt.parsed 150) = 150 :=
  (c9_quality_passthrough 150 (by decide)).1

/-- Claim C5 counterexample: with layout=sheet and watermarkScale=1.0, a
500x500 watermark has resize target width round(800*1.0)=800 and the
width-only resize scales it to 800x800 - upscaled past its own 500x500
bounds - not to the claimed min(800,500)=500. -/
theorem c5_counterexample :
    wmTargetWidth (resolveConfig { rawAllMissing with
        watermarkScale := RawNum.parsed 1 }) = some 800 ∧
    sharpResizeWidth 500 500 800 = (800, 800) ∧
    (sharpResizeWidth 500 500 800).1 ≠ 500 := by
  refine ⟨by with_unfolding_all rfl, by with_unfolding_all rfl, ?_⟩
  have h : (sharpResizeWidth 500 500 800).1 = 800 := rfl
  rw [h]
  decide

/-- Claim C5 (amended): for every resolved watermarkScale the watermark is
resized toward width round(canvasWidth * watermarkScale) preserving its
aspect ratio (the resized height is within rounding of the exact
proportional height), but with upscaling permitted: the resized width always
equals the requested width, even when that exceeds the watermark's own
natural width (the fit option does not cap a width-only resize). -/
theorem c5_watermark_resize (c : Config) (q : ℚ) (target : ℤ) (w h : ℕ)
    (hs : c.watermarkScale = some q)
    (ht : target = jsRound ((canvasWidth c : ℚ) * q)) (hw : 0 < w) :
    wmTargetWidth c = some target ∧
    (sharpResizeWidth w h target).1 = target ∧
    2 * |((sharpResizeWidth w h target).2 : ℚ) * w - h * target| ≤ w := by
  refine ⟨by rw [wmTargetWidth, hs, Option.map_some', ht], rfl, ?_⟩
  have hw' : (0:ℚ) < w := by exact_mod_cast hw
  have hsnd : ((sharpResizeWidth w h target).2 : ℚ) = jsRound ((h : ℚ) * target / w) := rfl
  set x : ℚ := (h : ℚ) * target / w with hx
  have hr := jsRound_near x
  have key : x * w = (h : ℚ) * target := by
    rw [hx]
    field_simp
  calc 2 * |((sharpResizeWidth w h target).2 : ℚ) * w - h * target|
      = 2 * (|(jsRound x : ℚ) - x| * w) := by
        rw [hsnd, ← key, ← sub_mul, abs_mul, abs_of_pos hw']
    _ ≤ 2 * ((1/2) * w) := by
        have := mul_le_mul_of_nonneg_right hr (le_of_lt hw')
        linarith
    _ = w := by ring

/-- Witness for C5 (amended) at the scenario input: layout=sheet,
watermarkScale=1.0, watermark 500x500, requested width 800. -/
theorem c5_witness :
    wmTargetWidth (resolveConfig { rawAllMissing with
        watermarkScale := RawNum.parsed 1 }) = some 800 ∧
    (sharpResizeWidth 500 500 800).1 = 800 ∧
    2 * |((sharpResizeWidth 500 500 800).2 : ℚ) * 500 - 500 * 800| ≤ 500 :=
  c5_watermark_resize
    (resolveConfig { rawAllMissing with watermarkScale := RawNum.parsed 1 })
    1 800 500 500 (by with_unfolding_all rfl) (by with_unfolding_all rfl) (by decide)

/-- Claim C6: every resolved output format other than png - including the
unsupported value webp - yields jpeg encoding and Content-Type image/jpeg,
the permissive default, not an error. -/
theorem c6_non_png_maps_to_jpeg (r : RawConfig) (rot : ℤ × ℤ → ℤ × ℤ)
    (img logo : Dims) (out : ConvertOk)
    (hfmt : (resolveConfig r).targetFormat ≠ "png")
    (hok : convertImage (some img) (some logo) r rot = Except.ok out) :
    out.outFormat = "jpeg" ∧ out.contentType = "image/jpeg" := by
  obtain ⟨-, -, -, hf, hc, -⟩ := convertImage_ok_elim r rot img logo out hok
  rw [hf, hc, if_neg hfmt, if_neg hfmt]
  exact ⟨rfl, rfl⟩

/-- Witness for C6 at the concrete request `format=webp`: the output is jpeg
with Content-Type image/jpeg. -/
theorem c6_witness : sampleOut.outFormat = "jpeg" ∧ sampleOut.contentType = "image/jpeg" := by
  have hfmt : (resolveConfig rawWebp).targetFormat = "webp" := by with_unfolding_all rfl
  exact c6_non_png_maps_to_jpeg rawWebp (fun p => p) ⟨500, 500⟩ ⟨500, 500⟩ sampleOut
    (by rw [hfmt]; decide) (by with_unfolding_all rfl)

/-- Claim C7: the composition's z-order is fixed - the watermark layer,
carrying the configured opacity, is painted first onto the opaque white
canvas background; the subject is painted above it at full opacity (no
opacity field); and in sheet layout only, the secondary logo is painted
last, also at full opacity. -/
theorem c7_layer_order (r : RawConfig) (rot : ℤ × ℤ → ℤ × ℤ)
    (img logo : Dims) (out : ConvertOk)
    (hok : convertImage (some img) (some logo) r rot = Except.ok out) :
    out.backgroundRGBA = (255, 255, 255, 1) ∧
    out.layers.map Layer.source =
      [LayerSource.watermark, LayerSource.subject] ++
        (if (resolveConfig r).layout = "sheet" then [LayerSource.bottomLogo] else []) ∧
    out.layers.map Layer.opacity =
      [some (resolveConfig r).watermarkOpacity, none] ++
        (if (resolveConfig r).layout = "sheet" then [none] else []) := by
  obtain ⟨-, -, hb, -, -, -, hsrc, hop⟩ := convertImage_ok_elim r rot img logo out hok
  exact ⟨hb, hsrc, hop⟩

/-- Witness for C7 at the concrete all-defaults request (sheet layout):
three layers, watermark with opacity 0.30 first, subject second, bottom
logo last, on the opaque white background. -/
theorem c7_witness :
    sampleOut.backgroundRGBA = (255, 255, 255, 1) ∧
    sampleOut.layers.map Layer.source =
      [LayerSource.watermark, LayerSource.subject] ++
        (if (resolveConfig rawAllMissing).layout = "sheet" then [LayerSource.bottomLogo]
          else []) ∧
    sampleOut.layers.map Layer.opacity =
      [some (resolveConfig rawAllMissing).watermarkOpacity, none] ++
        (if (resolveConfig rawAllMissing).layout = "sheet" then [none] else []) :=
  c7_layer_order rawAllMissing (fun p => p) ⟨500, 500⟩ ⟨500, 500⟩ sampleOut
    (by with_unfolding_all rfl)

/-- Claim C8: in sheet layout, and only there, the secondary logo layer is
the watermark image resized to the fixed width 400 preserving aspect ratio
(height within the proportional-resize model), centered horizontally
(left = round((800-400)/2) = 200), with its placement centered in the
bottom 200-unit band below the 800-tall subject region. -/
theorem c8_bottom_logo (c : Config) (logo : Dims) (hs : c.layout = "sheet") :
    bottomLogoComp c logo =
      [{ source := LayerSource.bottomLogo
         width := 400
         height := (sharpResizeWidth logo.w logo.h 400).2
         left := 200
         top := 800 +
           jsRound (((200 : ℚ) - ((sharpResizeWidth logo.w logo.h 400).2 : ℚ)) / 2)
         opacity := none }] ∧
    (sharpResizeWidth logo.w logo.h 400).2 = jsRound ((logo.h : ℚ) * 400 / logo.w) ∧
    (∀ c' : Config, c'.layout ≠ "sheet" → bottomLogoComp c' logo = []) := by
  refine ⟨?_, rfl, fun c' hc' => by rw [bottomLogoComp, if_neg hc']⟩
  rw [bottomLogoComp, if_pos hs]
  have hcw : canvasWidth c = 800 := by rw [canvasWidth, if_pos hs]
  have hch : canvasHeight c = 1000 := by rw [canvasHeight, if_pos hs]
  have hleft : jsRound (((canvasWidth c : ℚ) - ((sharpResizeWidth logo.w logo.h 400).1 : ℚ))
      / 2) = 200 := by
    rw [hcw]
    have h1 : ((sharpResizeWidth logo.w logo.h 400).1 : ℚ) = 400 := rfl
    rw [h1]
    norm_num [jsRound]
  have htop : (((canvasHeight c : ℚ) - 800) - ((sharpResizeWidth logo.w logo.h 400).2 : ℚ))
      / 2 = ((200 : ℚ) - ((sharpResizeWidth logo.w logo.h 400).2 : ℚ)) / 2 := by
    rw [hch]
    norm_num
  have hwidth : (sharpResizeWidth logo.w logo.h 400).1 = 400 := rfl
  simp only [htop]
  rw [hleft, hwidth]

/-- Witness for C8 at the concrete sheet configuration with a 500x500
watermark: bottom logo 400x400 at left 200, top 700. -/
theorem c8_witness :
    bottomLogoComp (resolveConfig rawAllMissing) ⟨500, 500⟩ =
      [{ source := LayerSource.bottomLogo, width := 400, height := 400,
         left := 200, top := 700, opacity := none }] := by
  have h := (c8_bottom_logo (resolveConfig rawAllMissing) ⟨500, 500⟩
    (by with_unfolding_all rfl)).1
  rw [h]
  with_unfolding_all rfl

/-- Claim C10 counterexample: a prepared watermark exactly one unit wider
than the 800-unit sheet canvas gets centering offset
round((800-801)/2) = round(-0.5) = 0, which is not negative - even though
the layer is wider than the canvas and still extends past its right edge. -/
theorem c10_counterexample :
    canvasWidth (resolveConfig rawAllMissing) = 800 ∧
    wmLeft (resolveConfig rawAllMissing) 801 = 0 ∧
    ¬ wmLeft (resolveConfig rawAllMissing) 801 < 0 := by
  refine ⟨by with_unfolding_all rfl, by with_unfolding_all rfl, ?_⟩
  have h : wmLeft (resolveConfig rawAllMissing) 801 = 0 := by with_unfolding_all rfl
  rw [h]
  decide

/-- Claim C10 (amended): the plan centers the unclipped watermark layer, so
whenever the prepared layer exceeds a canvas dimension by at least two units
the corresponding placement offset round((canvas - layer)/2) is negative
(the layer is positioned partially outside the canvas); exceeding by exactly
one unit gives offset 0, with the layer still overhanging the far edge.  In
particular, under the default watermarkScale 2.5 the resize target width
round(canvasWidth * 2.5) exceeds the canvas width by at least two for both
layouts. -/
theorem c10_watermark_overflow (c : Config) (pw ph : ℤ) :
    ((canvasWidth c : ℤ) + 2 ≤ pw → wmLeft c pw < 0) ∧
    ((canvasHeight c : ℤ) + 2 ≤ ph → wmTop c ph < 0) ∧
    ((canvasWidth c : ℤ) + 1 = pw → wmLeft c pw = 0) ∧
    (∀ t : ℤ,
      wmTargetWidth { c with watermarkScale := resolveWatermarkScale RawNum.missing } = some t →
        (canvasWidth c : ℤ) + 2 ≤ t) := by
  refine ⟨?_, ?_, ?_, ?_⟩
  · intro hp
    rw [wmLeft, jsRound]
    rw [Int.floor_lt]
    push_cast
    have : (canvasWidth c : ℚ) + 2 ≤ (pw : ℚ) := by exact_mod_cast hp
    linarith
  · intro hp
    rw [wmTop, jsRound]
    rw [Int.floor_lt]
    push_cast
    have : (canvasHeight c : ℚ) + 2 ≤ (ph : ℚ) := by exact_mod_cast hp
    linarith
  · intro hp
    rw [wmLeft, jsRound]
    have : ((canvasWidth c : ℚ) - (pw : ℚ)) / 2 + 1/2 = 0 := by
      have : ((pw : ℚ)) = (canvasWidth c : ℚ) + 1 := by exact_mod_cast hp.symm
      rw [this]
      ring
    rw [this]
    exact Int.floor_zero
  · intro t ht
    have hcw : ∀ X : Option ℚ, canvasWidth { c with watermarkScale := X } = canvasWidth c :=
      fun _ => rfl
    rw [wmTargetWidth] at ht
    have hmax : (max (1/10 : ℚ) (5/2)) = 5/2 := by norm_num
    simp only [resolveWatermarkScale, Option.map_some', Option.some.injEq, hcw, hmax] at ht
    subst ht
    rw [jsRound, hcw]
    by_cases hl : c.layout = "sheet"
    · have h8 : canvasWidth c = 800 := by rw [canvasWidth, if_pos hl]
      rw [h8]
      norm_num
    · have h12 : canvasWidth c = 1200 := by rw [canvasWidth, if_neg hl]
      rw [h12]
      norm_num

/-- Witness for C10 (amended): in sheet layout a prepared 2000x2000
watermark (the default-scale resize target) is placed at negative offsets
round((800-2000)/2) = -600 and round((1000-2000)/2) = -500. -/
theorem c10_witness :
    wmLeft (resolveConfig rawAllMissing) 2000 < 0 ∧
    wmTop (resolveConfig rawAllMissing) 2000 < 0 := by
  have hcw : (canvasWidth (resolveConfig rawAllMissing) : ℤ) = 800 := by
    with_unfolding_all rfl
  have hch : (canvasHeight (resolveConfig rawAllMissing) : ℤ) = 1000 := by
    with_unfolding_all rfl
  have h := c10_watermark_overflow (resolveConfig rawAllMissing) 2000 2000
  exact ⟨h.1 (by rw [hcw]; decide), h.2.1 (by rw [hch]; decide)⟩

end MicroMark
